import Mathlib

/-!
Verification of the reverse-proxy request-execution pipeline
(`fantozy/reverse-proxy-sd`): rate limiter, backoff calculator,
retrying provider fetch, decision mapping / payload validation,
response normalization and the orchestrating route handler.

Python values flowing through the normalizers are modelled by the
inductive `JVal` (JSON-like data: `None`, booleans, numbers, strings,
lists, dicts).  Python numbers are modelled as integers (every number
the pipeline manipulates is an integer).  A Python expression that can
raise is modelled in `Except String`; the error string names the
Python exception class.
-/

/-- Python value model: None, bool, number, string, list, dict. -/
inductive JVal where
  | null
  | bool (b : Bool)
  | num (n : Int)
  | str (s : String)
  | arr (xs : List JVal)
  | obj (fields : List (String × JVal))

mutual

/-- Boolean structural equality on `JVal`. -/
def JVal.beq : JVal → JVal → Bool
  | .null, .null => true
  | .bool a, .bool b => a == b
  | .num a, .num b => a == b
  | .str a, .str b => a == b
  | .arr xs, .arr ys => JVal.beqList xs ys
  | .obj fs, .obj gs => JVal.beqFields fs gs
  | _, _ => false

/-- Boolean equality on lists of `JVal`. -/
def JVal.beqList : List JVal → List JVal → Bool
  | [], [] => true
  | x :: xs, y :: ys => JVal.beq x y && JVal.beqList xs ys
  | _, _ => false

/-- Boolean equality on dict field lists. -/
def JVal.beqFields : List (String × JVal) → List (String × JVal) → Bool
  | [], [] => true
  | (k, v) :: fs, (l, w) :: gs => k == l && JVal.beq v w && JVal.beqFields fs gs
  | _, _ => false

end

mutual

theorem JVal.beq_iff : ∀ a b : JVal, JVal.beq a b = true ↔ a = b
  | .null, b => by cases b <;> simp [JVal.beq]
  | .bool a, b => by cases b <;> simp [JVal.beq]
  | .num a, b => by cases b <;> simp [JVal.beq]
  | .str a, b => by cases b <;> simp [JVal.beq]
  | .arr xs, b => by
    cases b <;> simp [JVal.beq]
    exact JVal.beqList_iff xs _
  | .obj fs, b => by
    cases b <;> simp [JVal.beq]
    exact JVal.beqFields_iff fs _

theorem JVal.beqList_iff : ∀ xs ys : List JVal, JVal.beqList xs ys = true ↔ xs = ys
  | [], ys => by cases ys <;> simp [JVal.beqList]
  | x :: xs, ys => by
    cases ys with
    | nil => simp [JVal.beqList]
    | cons y ys =>
      simp [JVal.beqList, Bool.and_eq_true, JVal.beq_iff x y, JVal.beqList_iff xs ys]

theorem JVal.beqFields_iff :
    ∀ fs gs : List (String × JVal), JVal.beqFields fs gs = true ↔ fs = gs
  | [], gs => by cases gs <;> simp [JVal.beqFields]
  | (k, v) :: fs, gs => by
    cases gs with
    | nil => simp [JVal.beqFields]
    | cons g gs =>
      cases g with
      | mk l w =>
        simp [JVal.beqFields, Bool.and_eq_true, JVal.beq_iff v w,
          JVal.beqFields_iff fs gs, and_assoc]

end

instance : DecidableEq JVal := fun a b =>
  decidable_of_iff (JVal.beq a b = true) (JVal.beq_iff a b)

instance : BEq JVal := ⟨JVal.beq⟩

deriving instance DecidableEq for Except

@[simp] theorem except_ok_bind {ε α β : Type} (a : α) (f : α → Except ε β) :
    (Except.ok a : Except ε α) >>= f = f a := rfl

@[simp] theorem except_error_bind {ε α β : Type} (e : ε) (f : α → Except ε β) :
    (Except.error e : Except ε α) >>= f = .error e := rfl

@[simp] theorem except_pure_eq_ok {ε α : Type} (a : α) :
    (pure a : Except ε α) = .ok a := rfl

namespace JVal

/-- Python truthiness: `None`, `False`, `0`, `""`, `[]`, `{}` are falsy. -/
def truthy : JVal → Bool
  | .null => false
  | .bool b => b
  | .num n => n != 0
  | .str s => s ≠ ""
  | .arr xs => !xs.isEmpty
  | .obj fs => !fs.isEmpty

/-- Python `a or b`: returns `a` if truthy, else `b`. -/
def pyOr (a b : JVal) : JVal := if a.truthy then a else b

/-- `d.get(k, default)` on a dict; AttributeError on a non-dict. -/
def pyGetD : JVal → String → JVal → Except String JVal
  | .obj fs, k, dflt => .ok ((fs.lookup k).getD dflt)
  | _, _, _ => .error "AttributeError"

/-- `d.get(k)` on a dict (default `None`); AttributeError on a non-dict. -/
def pyGet (d : JVal) (k : String) : Except String JVal :=
  pyGetD d k .null

/-- `xs[-1]`: last element of a list (or last character of a string);
TypeError/KeyError on other values.  Only reached on truthy values in
the source, so the empty cases are unreachable there. -/
def pyLast : JVal → Except String JVal
  | .arr xs => match xs.getLast? with
    | some v => .ok v
    | none => .error "IndexError"
  | .str s => match s.data.getLast? with
    | some c => .ok (.str (String.mk [c]))
    | none => .error "IndexError"
  | _ => .error "TypeError"

/-- Whether a dict value carries key `k` (Python `k in d`); `false` for
non-dicts. -/
def hasKey : JVal → String → Bool
  | .obj fs, k => (fs.lookup k).isSome
  | _, _ => false

end JVal

mutual

/-- Structural containment: does value `v` occur anywhere inside `t`? -/
def JVal.contains : JVal → JVal → Bool
  | .arr xs, v => JVal.beq (.arr xs) v || JVal.containsList xs v
  | .obj fs, v => JVal.beq (.obj fs) v || JVal.containsFields fs v
  | t, v => JVal.beq t v

/-- Containment in any element of a list of values. -/
def JVal.containsList : List JVal → JVal → Bool
  | [], _ => false
  | x :: xs, v => JVal.contains x v || JVal.containsList xs v

/-- Containment in any value of a dict field list. -/
def JVal.containsFields : List (String × JVal) → JVal → Bool
  | [], _ => false
  | (_, w) :: fs, v => JVal.contains w v || JVal.containsFields fs v

end

/-! ## Normalizers (`src/app/normalizers.py`) -/

/-- The per-item loop of a normalizer (`for item in data:
normalized.append(f(item))`): first failure aborts. -/
def mapExcept (f : JVal → Except String JVal) : List JVal → Except String (List JVal)
  | [] => .ok []
  | x :: xs => do
    let y ← f x
    let ys ← mapExcept f xs
    return y :: ys

open JVal in
/-- `normalize_leagues` body of the per-league loop. -/
def normalize_league_item (league : JVal) : Except String JVal := do
  let lid ← league.pyGet "LeagueId"
  let lid2 ← league.pyGet "id"
  let lname ← league.pyGet "LeagueName"
  let lname2 ← league.pyGet "name"
  let lcountry ← league.pyGet "LeagueShortcut"
  let lcountry2 ← league.pyGetD "country" (.str "")
  let lseason ← league.pyGet "CurrentSeason"
  let lseason2 ← league.pyGet "season"
  return .obj [("id", pyOr lid lid2), ("name", pyOr lname lname2),
               ("country", pyOr lcountry lcountry2),
               ("season", pyOr lseason lseason2)]

/-- `normalize_leagues`: empty list on a non-list, else per-item mapping. -/
def normalize_leagues (data : JVal) : Except String JVal :=
  match data with
  | .arr xs => do
    let ys ← mapExcept normalize_league_item xs
    return .arr ys
  | _ => .ok (.arr [])

open JVal in
/-- Result derivation shared by `normalize_matches` and `normalize_match`:
from a truthy `MatchResults` value take the last entry and read its
points; yields `(goals1, goals2, result)`. -/
def deriveResult (match_results : JVal) : Except String (JVal × JVal × JVal) :=
  if match_results.truthy then do
    let final ← match_results.pyLast
    let goals1 ← final.pyGet "PointsTeam1"
    let goals2 ← final.pyGet "PointsTeam2"
    return (goals1, goals2, .obj [("team1Goals", goals1), ("team2Goals", goals2)])
  else
    return (.null, .null, .null)

open JVal in
/-- `normalize_matches` body of the per-match loop. -/
def normalize_match_item (m : JVal) : Except String JVal := do
  let team1raw ← m.pyGet "Team1"
  let team1 := pyOr team1raw (.obj [])
  let team2raw ← m.pyGet "Team2"
  let team2 := pyOr team2raw (.obj [])
  let match_results ← m.pyGetD "MatchResults" (.arr [])
  let gr ← deriveResult match_results
  let mid ← m.pyGet "MatchID"
  let mid2 ← m.pyGet "id"
  let t1a ← team1.pyGet "TeamName"
  let t1b ← team1.pyGetD "name" (.str "")
  let t2a ← team2.pyGet "TeamName"
  let t2b ← team2.pyGetD "name" (.str "")
  let da ← m.pyGet "MatchDateTime"
  let db ← m.pyGetD "date" (.str "")
  let rawStatus ← m.pyGet "MatchStatus"
  let status := pyOr rawStatus
    (if gr.2.2.truthy then .str "completed" else .str "scheduled")
  return .obj [("id", pyOr mid mid2), ("team1", pyOr t1a t1b),
               ("team2", pyOr t2a t2b), ("date", pyOr da db),
               ("status", status), ("goals1", gr.1), ("goals2", gr.2.1),
               ("result", gr.2.2)]

/-- `normalize_matches`: empty list on a non-list, else per-item mapping. -/
def normalize_matches (data : JVal) : Except String JVal :=
  match data with
  | .arr xs => do
    let ys ← mapExcept normalize_match_item xs
    return .arr ys
  | _ => .ok (.arr [])

open JVal in
/-- `normalize_team`: empty dict on a non-dict; otherwise each output
field reads the upstream key first, falling back to the pre-normalized
key.  Total: `dict.get` never raises. -/
def normalize_team (data : JVal) : JVal :=
  match data with
  | .obj fs =>
    .obj [("id", pyOr ((fs.lookup "TeamId").getD .null) ((fs.lookup "id").getD .null)),
          ("name", pyOr ((fs.lookup "TeamName").getD .null) ((fs.lookup "name").getD (.str ""))),
          ("shortName", pyOr ((fs.lookup "ShortName").getD .null) ((fs.lookup "shortName").getD .null)),
          ("foundedYear", pyOr ((fs.lookup "FoundingYear").getD .null) ((fs.lookup "foundedYear").getD .null)),
          ("logo", pyOr ((fs.lookup "TeamIconUrl").getD .null) ((fs.lookup "logo").getD .null))]
  | _ => .obj []

open JVal in
/-- `normalize_match` (single match): empty dict on a non-dict. -/
def normalize_match (data : JVal) : Except String JVal :=
  match data with
  | .obj _ => do
    let match_results ← data.pyGetD "MatchResults" (.arr [])
    let gr ← deriveResult match_results
    let team1raw ← data.pyGet "Team1"
    let team1 := pyOr team1raw (.obj [])
    let team2raw ← data.pyGet "Team2"
    let team2 := pyOr team2raw (.obj [])
    let mid ← data.pyGet "MatchID"
    let mid2 ← data.pyGet "id"
    let t1a ← team1.pyGet "TeamName"
    let t1b ← team1.pyGetD "name" (.str "")
    let t1ida ← team1.pyGet "TeamId"
    let t1idb ← team1.pyGet "id"
    let t2a ← team2.pyGet "TeamName"
    let t2b ← team2.pyGetD "name" (.str "")
    let t2ida ← team2.pyGet "TeamId"
    let t2idb ← team2.pyGet "id"
    let da ← data.pyGet "MatchDateTime"
    let db ← data.pyGetD "date" (.str "")
    let rawStatus ← data.pyGet "MatchStatus"
    let status := pyOr rawStatus
      (if gr.2.2.truthy then .str "completed" else .str "scheduled")
    let loc ← data.pyGet "Location"
    return .obj [("id", pyOr mid mid2), ("team1", pyOr t1a t1b),
                 ("team1Id", pyOr t1ida t1idb), ("team2", pyOr t2a t2b),
                 ("team2Id", pyOr t2ida t2idb), ("date", pyOr da db),
                 ("status", status), ("goals1", gr.1), ("goals2", gr.2.1),
                 ("result", gr.2.2), ("location", loc)]
  | _ => .ok (.obj [])

/-- `normalize_response`: dispatch on operation type; unknown operations
pass the data through unchanged. -/
def normalize_response (operation_type : String) (data : JVal) : Except String JVal :=
  if operation_type = "ListLeagues" then normalize_leagues data
  else if operation_type = "GetLeagueMatches" then normalize_matches data
  else if operation_type = "GetTeam" then .ok (normalize_team data)
  else if operation_type = "GetMatch" then normalize_match data
  else .ok data

/-! ## Python string rendering (f-string interpolation of payload values) -/

mutual

/-- Python `repr` of a value (used by `str` on containers and by the
f-string rendering of a list in an error message). -/
def pyRepr : JVal → String
  | .null => "None"
  | .bool true => "True"
  | .bool false => "False"
  | .num n => toString n
  | .str s => "\x27" ++ s ++ "\x27"
  | .arr xs => "[" ++ String.intercalate ", " (pyReprList xs) ++ "]"
  | .obj fs => "\x7b" ++ String.intercalate ", " (pyReprFields fs) ++ "\x7d"

/-- `repr` of each element of a list. -/
def pyReprList : List JVal → List String
  | [] => []
  | x :: xs => pyRepr x :: pyReprList xs

/-- `repr` of each entry of a dict. -/
def pyReprFields : List (String × JVal) → List String
  | [] => []
  | (k, v) :: fs => ("\x27" ++ k ++ "\x27: " ++ pyRepr v) :: pyReprFields fs

end

/-- Python `str` of a value (f-string interpolation). -/
def pyStr (v : JVal) : String :=
  match v with
  | .str s => s
  | _ => pyRepr v

/-! ## Rate limiter (`src/app/utils/rate_limiter.py`) -/

/-- Sliding-window rate limiter state: admission `limit`, `window`
length, and the deque of admitted-call timestamps (oldest first).
`time.monotonic()` instants are modelled as integers. -/
structure RateLimiter where
  limit : Nat
  window : Int
  requests : List Int
deriving DecidableEq

namespace RateLimiter

/-- The `while self.requests and self.requests[0] < current_time -
self.window: popleft()` pruning loop. -/
def prune (rl : RateLimiter) (now : Int) : List Int :=
  rl.requests.dropWhile (fun t => decide (t < now - rl.window))

/-- `is_allowed`: prune expired timestamps, admit iff fewer than
`limit` remain, recording `now` on admission.  Returns the decision
and the mutated state. -/
def is_allowed (rl : RateLimiter) (now : Int) : Bool × RateLimiter :=
  let pruned := rl.prune now
  if pruned.length < rl.limit then
    (true, { rl with requests := pruned ++ [now] })
  else
    (false, { rl with requests := pruned })

/-- `get_remaining`: `max(0, limit - len(requests))` after pruning
(the value; the pruning mutation is already reflected in callers). -/
def get_remaining (rl : RateLimiter) (now : Int) : Nat :=
  rl.limit - (rl.prune now).length

/-- `get_reset_time`: time until the oldest recorded timestamp leaves
the window; `0` with no recorded timestamps. -/
def get_reset_time (rl : RateLimiter) (now : Int) : Int :=
  match rl.requests with
  | [] => 0
  | oldest :: _ => max 0 (oldest + rl.window - now)

end RateLimiter

/-- Human-readable rate-limit message (the source formats the reset
time with one decimal place; rendering of the number is abstracted). -/
def rateLimitMessage (reset : Int) : String :=
  "Rate limit exceeded. Reset in " ++ toString reset ++ "s"

/-- The `HTTPException(429, detail=...)` body raised by
`check_rate_limit` on a denied admission: only `code` and `message`,
computed from the post-check limiter state. -/
def rateLimitDetail (rl : RateLimiter) (now : Int) : JVal :=
  .obj [("code", .str "RATE_LIMIT_EXCEEDED"),
        ("message", .str (rateLimitMessage (rl.get_reset_time now)))]

/-! ## Backoff calculator (`src/app/utils/backoff.py`) -/

/-- `exponential_backoff`: the product `base_delay * (2 ** retry_count)`
is computed BEFORE the `min` clamp.  `2 ** retry_count` is an
arbitrary-precision int whose conversion to float raises
OverflowError once it exceeds the float range — for the powers of two
occurring here, exactly when `retry_count ≥ 1024` — so the clamp is
never reached there.  Below the threshold, finite float arithmetic is
modelled by exact rationals (a power-of-two multiply only shifts the
exponent; a product overflowing to `inf` is clamped by `min` to
`max_delay` just as the rational `min` is).  With jitter the value is
drawn uniformly from `[0, delay)`, modelled by the `draw` parameter
(for `random.uniform(0, delay)`). -/
def exponential_backoff (draw : ℚ → ℚ) (retry_count : Nat)
    (base_delay max_delay : ℚ) (jitter : Bool) : Except String ℚ :=
  if 1024 ≤ retry_count then .error "OverflowError"
  else
    let delay := min (base_delay * 2 ^ retry_count) max_delay
    .ok (if jitter then draw delay else delay)

/-- Below the overflow threshold the calculator returns the clamped
(possibly jittered) delay. -/
theorem exponential_backoff_ok (draw : ℚ → ℚ) (retry_count : Nat)
    (base_delay max_delay : ℚ) (jitter : Bool) (h : retry_count < 1024) :
    exponential_backoff draw retry_count base_delay max_delay jitter =
      .ok (if jitter then draw (min (base_delay * 2 ^ retry_count) max_delay)
           else min (base_delay * 2 ^ retry_count) max_delay) := by
  simp [exponential_backoff, Nat.not_le.mpr h]

/-! ## Provider client fetch (`src/app/adapters/openligadb.py`) -/

/-- `AdapterResponse` (`src/app/adapters/base.py`). -/
structure AdapterResponse where
  data : JVal
  status_code : Nat
  latency_ms : Nat
  upstream_url : String
deriving DecidableEq

/-- Outcome of one raw HTTP attempt: a response with status, JSON body
and measured latency, or an `asyncio.TimeoutError`. -/
inductive UpOutcome where
  | resp (status_code : Nat) (body : JVal) (latency_ms : Nat)
  | timeout
deriving DecidableEq

/-- Adapter configuration (`Settings` fields used by the fetch loop). -/
structure FetchCfg where
  maxRetries : Nat
  base_delay : ℚ
  max_delay : ℚ
  jitter : Bool
  /-- model of `random.uniform(0, d)` -/
  draw : ℚ → ℚ
  /-- `OPENLIGADB_TIMEOUT`, seconds -/
  timeout : Nat
  base_url : String

/-- Everything `_fetch` produces on the non-rate-limited path: the
final `AdapterResponse`, the total number of attempts issued, the
total backoff delay slept, and the final rate-limiter state. -/
structure FetchOut where
  resp : AdapterResponse
  attempts : Nat
  total_delay : ℚ
  rl : RateLimiter

/-- Result of `_fetch`: a completed fetch, the `HTTPException` raised
by `check_rate_limit` (carrying its `detail` body), or any other
exception escaping the retry loop (the backoff OverflowError). -/
inductive FetchResult where
  | ok (out : FetchOut)
  | rateLimited (detail : JVal)
  | exception (e : String)

/-- Transient statuses retried by `_fetch`. -/
def retryable (code : Nat) : Bool :=
  [429, 500, 502, 503, 504].contains code

/-- Add a backoff sleep to the delay total of a completed fetch. -/
def addDelay (d : ℚ) : FetchResult → FetchResult
  | .ok out => .ok { out with total_delay := d + out.total_delay }
  | r => r

/-- Error body for a non-retryable / exhausted non-200 status. -/
def apiErrorResp (url : String) (code lat : Nat) : AdapterResponse :=
  ⟨.obj [("error", .str ("API error: " ++ toString code))], code, lat, url⟩

/-- Synthetic response after a timeout with retries exhausted. -/
def timeoutResp (cfg : FetchCfg) (url : String) : AdapterResponse :=
  ⟨.obj [("error", .str "Request timeout")], 504, cfg.timeout * 1000, url⟩

/-- The recursive body of `OpenLigaDBAdapter._fetch`.  `remaining` is
`maxRetries - retry_count` (the retries still available, so the Python
guard `retry_count < maxRetries` is `remaining ≠ 0`) and `attempt` is
the 0-based `retry_count`; `upstream` gives each attempt's network
outcome and `times` the monotonic clock at each rate-limit check. -/
def fetchAux (cfg : FetchCfg) (upstream : Nat → UpOutcome) (times : Nat → Int)
    (url : String) : (remaining : Nat) → (attempt : Nat) → RateLimiter → FetchResult
  | 0, attempt, rl =>
    let ar := rl.is_allowed (times attempt)
    if !ar.1 then
      .rateLimited (rateLimitDetail ar.2 (times attempt))
    else
      match upstream attempt with
      | .resp code body lat =>
        if code = 200 then
          .ok ⟨⟨body, 200, lat, url⟩, attempt + 1, 0, ar.2⟩
        else
          .ok ⟨apiErrorResp url code lat, attempt + 1, 0, ar.2⟩
      | .timeout => .ok ⟨timeoutResp cfg url, attempt + 1, 0, ar.2⟩
  | r + 1, attempt, rl =>
    let ar := rl.is_allowed (times attempt)
    if !ar.1 then
      .rateLimited (rateLimitDetail ar.2 (times attempt))
    else
      match upstream attempt with
      | .resp code body lat =>
        if code = 200 then
          .ok ⟨⟨body, 200, lat, url⟩, attempt + 1, 0, ar.2⟩
        else if retryable code then
          match exponential_backoff cfg.draw attempt cfg.base_delay cfg.max_delay cfg.jitter with
          | .error e => .exception e
          | .ok d => addDelay d (fetchAux cfg upstream times url r (attempt + 1) ar.2)
        else
          .ok ⟨apiErrorResp url code lat, attempt + 1, 0, ar.2⟩
      | .timeout =>
        match exponential_backoff cfg.draw attempt cfg.base_delay cfg.max_delay cfg.jitter with
        | .error e => .exception e
        | .ok d => addDelay d (fetchAux cfg upstream times url r (attempt + 1) ar.2)

/-- `_fetch(url)` entry: `retry_count = 0`, `maxRetries` retries left. -/
def fetch (cfg : FetchCfg) (upstream : Nat → UpOutcome) (times : Nat → Int)
    (rl : RateLimiter) (url : String) : FetchResult :=
  fetchAux cfg upstream times url cfg.maxRetries 0 rl

/-! ## Decision mapper (`src/app/decision_mapper.py`) -/

/-- The closed operation enumeration (`OperationType`). -/
def OPERATIONS : List String :=
  ["ListLeagues", "GetLeagueMatches", "GetTeam", "GetMatch"]

/-- Required payload fields per operation (`OPERATION_SCHEMAS`). -/
def required_fields : String → List String
  | "GetLeagueMatches" => ["leagueId", "season"]
  | "GetTeam" => ["teamId"]
  | "GetMatch" => ["teamId1", "teamId2"]
  | _ => []

/-- `validate_operation_type`: membership in the enumeration. -/
def validate_operation_type (operation : String) : Bool :=
  OPERATIONS.contains operation

/-- Message accompanying an unknown-operation rejection. -/
def unknownOperationMessage : String :=
  "Unknown operation. Supported: " ++ String.intercalate ", " OPERATIONS

/-- The fields of `required` absent from the payload dict. -/
def missing_fields (operation : String) (payload : List (String × JVal)) : List String :=
  (required_fields operation).filter (fun f => !((payload.map Prod.fst).contains f))

/-- `validate_payload` for a known operation: `none` when valid, else
the error message and the `{"missing_fields": [...]}` details. -/
def validate_payload (operation : String) (payload : List (String × JVal)) :
    Option (String × JVal) :=
  let missing := missing_fields operation payload
  if missing.isEmpty then none
  else
    some ("Missing required fields: " ++ pyRepr (.arr (missing.map JVal.str)),
          .obj [("missing_fields", .arr (missing.map JVal.str))])

/-- `OperationDecision.execute` composed with the adapter method it
invokes: resolve the upstream URL from the payload via the decision's
field mapping (`ListLeagues → list_leagues`, `GetLeagueMatches →
get_league_matches`, `GetTeam → get_team`, `GetMatch →
get_matches_between_teams`).  A missing required parameter is a
`TypeError`; an unregistered operation is the route's `ValueError`. -/
def adapter_url (base_url : String) (operation : String)
    (payload : List (String × JVal)) : Except String String :=
  match operation with
  | "ListLeagues" => .ok (base_url ++ "/api/getavailableleagues")
  | "GetLeagueMatches" =>
    match payload.lookup "leagueId" with
    | none => .error "TypeError"
    | some lid =>
      let season := match payload.lookup "season" with
        | none => "None"
        | some s => pyStr s
      .ok (base_url ++ "/api/getmatchdata/" ++ pyStr lid ++ "/" ++ season)
  | "GetTeam" =>
    match payload.lookup "teamId" with
    | none => .error "TypeError"
    | some tid => .ok (base_url ++ "/api/getteam/" ++ pyStr tid)
  | "GetMatch" =>
    match payload.lookup "teamId1", payload.lookup "teamId2" with
    | some t1, some t2 =>
      .ok (base_url ++ "/api/getmatchdata/" ++ pyStr t1 ++ "/" ++ pyStr t2)
    | _, _ => .error "TypeError"
  | _ => .error "ValueError"

/-! ## Pipeline orchestrator (`src/app/routes/proxy.py` and the
`HTTPException` handler in `src/main.py`) -/

/-- A parsed `ProxyRequest`: operation name, the request id (caller
supplied or generated by the model default), and the payload dict. -/
structure ProxyReq where
  operationType : String
  requestId : String
  payload : List (String × JVal)

/-- The HTTP response ultimately serialized to the caller. -/
structure HttpResponse where
  status_code : Nat
  body : JVal
deriving DecidableEq

/-- `_error_response`: the error envelope body. -/
def error_envelope (request_id error_code message : String) (details : JVal) : JVal :=
  .obj [("requestId", .str request_id), ("success", .bool false),
        ("error", .obj [("code", .str error_code), ("message", .str message),
                        ("details", details)])]

/-- `_error_response`: HTTP status mapping (unknown statuses map to 500). -/
def error_http_status (s : Nat) : Nat :=
  if s = 400 then 400 else if s = 502 then 502 else if s = 500 then 500 else 500

/-- The success envelope body. -/
def success_envelope (request_id : String) (data : JVal) (latency : Nat)
    (timestamp : String) : JVal :=
  .obj [("requestId", .str request_id), ("success", .bool true), ("data", data),
        ("metadata", .obj [("provider", .str "openliga"),
                           ("upstreamLatency", .num latency),
                           ("timestamp", .str timestamp)])]

/-- `execute_proxy`: validate the operation name, validate the
payload, resolve the decision and upstream URL, fetch with rate
limiting and retries, and normalize — translating each failure into
its envelope.  The raised `HTTPException`s are returned as the
`JSONResponse` produced by the `http_exception_handler` in
`src/main.py` (for dict details, the detail itself is the body);
unexpected exceptions become the 500 `INTERNAL_ERROR` envelope. -/
def execute_proxy (cfg : FetchCfg) (upstream : Nat → UpOutcome)
    (times : Nat → Int) (rl : RateLimiter) (timestamp : String)
    (req : ProxyReq) : HttpResponse :=
  if !validate_operation_type req.operationType then
    ⟨error_http_status 400,
     error_envelope req.requestId "UNKNOWN_OPERATION" unknownOperationMessage .null⟩
  else
    match validate_payload req.operationType req.payload with
    | some (msg, details) =>
      ⟨error_http_status 400,
       error_envelope req.requestId "VALIDATION_ERROR" msg details⟩
    | none =>
      match adapter_url cfg.base_url req.operationType req.payload with
      | .error _ =>
        ⟨error_http_status 500,
         error_envelope req.requestId "INTERNAL_ERROR" "Internal server error" .null⟩
      | .ok url =>
        match fetch cfg upstream times rl url with
        | .rateLimited detail => ⟨429, detail⟩
        | .exception _ =>
          ⟨error_http_status 500,
           error_envelope req.requestId "INTERNAL_ERROR" "Internal server error" .null⟩
        | .ok out =>
          if out.resp.status_code ≠ 200 then
            ⟨error_http_status 502,
             error_envelope req.requestId "UPSTREAM_ERROR"
               "Upstream API failed after retries" out.resp.data⟩
          else
            match normalize_response req.operationType out.resp.data with
            | .error _ =>
              ⟨error_http_status 500,
               error_envelope req.requestId "INTERNAL_ERROR" "Internal server error" .null⟩
            | .ok nd =>
              ⟨200, success_envelope req.requestId nd out.resp.latency_ms timestamp⟩

/-! ## Helper lemmas -/

/-- Field of a dict value, `none` on a non-dict. -/
def jfield : JVal → String → Option JVal
  | .obj fs, k => fs.lookup k
  | _, _ => none

@[simp] theorem pyOr_null (x : JVal) : JVal.pyOr .null x = x := by
  simp [JVal.pyOr, JVal.truthy]

/-- On an ascending list, the lazy prefix pruning of the rate limiter
discards exactly the elements below the cutoff. -/
theorem sorted_dropWhile_lt (l : List Int) (c : Int) (h : l.Sorted (· ≤ ·)) :
    l.dropWhile (fun t => decide (t < c)) = l.filter (fun t => decide (c ≤ t)) := by
  induction l with
  | nil => simp
  | cons a l ih =>
    rw [List.sorted_cons] at h
    by_cases hac : a < c
    · simpa [List.dropWhile_cons, List.filter_cons, hac, not_le.mpr hac] using ih h.2
    · push_neg at hac
      have hall : ∀ b ∈ l, c ≤ b := fun b hb => le_trans hac (h.1 b hb)
      have hfl : l.filter (fun t => decide (c ≤ t)) = l :=
        List.filter_eq_self.mpr (fun b hb => by simpa using hall b hb)
      simp [List.dropWhile_cons, List.filter_cons, not_lt.mpr hac, hac, hfl]

/-! ## Claim C10: `normalize_team` defaults -/

/-- C10: for every GetTeam raw input object, an output field whose
source is present under neither the upstream naming convention nor the
pre-normalized one defaults to the empty string for `name` and to
`null` for `id`, `shortName`, `foundedYear` and `logo`; in particular
`normalize_team {} = {id: null, name: "", shortName: null,
foundedYear: null, logo: null}`. -/
theorem normalize_team_defaults :
    (∀ fs : List (String × JVal),
      (fs.lookup "TeamId" = none → fs.lookup "id" = none →
        jfield (normalize_team (.obj fs)) "id" = some .null) ∧
      (fs.lookup "TeamName" = none → fs.lookup "name" = none →
        jfield (normalize_team (.obj fs)) "name" = some (.str "")) ∧
      (fs.lookup "ShortName" = none → fs.lookup "shortName" = none →
        jfield (normalize_team (.obj fs)) "shortName" = some .null) ∧
      (fs.lookup "FoundingYear" = none → fs.lookup "foundedYear" = none →
        jfield (normalize_team (.obj fs)) "foundedYear" = some .null) ∧
      (fs.lookup "TeamIconUrl" = none → fs.lookup "logo" = none →
        jfield (normalize_team (.obj fs)) "logo" = some .null)) ∧
    normalize_team (.obj []) =
      .obj [("id", .null), ("name", .str ""), ("shortName", .null),
            ("foundedYear", .null), ("logo", .null)] := by
  refine ⟨fun fs => ⟨?_, ?_, ?_, ?_, ?_⟩, by rfl⟩ <;>
    (intro h1 h2; simp [normalize_team, jfield, h1, h2, List.lookup])

/-- Witness for C10 at two concrete inputs. -/
theorem normalize_team_defaults_witness :
    jfield (normalize_team (.obj [("foo", .num 1)])) "name" = some (.str "") ∧
    jfield (normalize_team (.obj [("foo", .num 1)])) "id" = some .null :=
  ⟨(normalize_team_defaults.1 [("foo", .num 1)]).2.1 rfl rfl,
   (normalize_team_defaults.1 [("foo", .num 1)]).1 rfl rfl⟩

/-! ## Claim C3: backoff calculator -/

/-- C3 counterexample: at `attempt = 1024` the product
`base_delay * (2 ** attempt)` raises OverflowError before the clamp,
so the calculator does not return `min(base * 2 ^ attempt, max)` for
arbitrarily large attempts. -/
theorem exponential_backoff_overflow :
    exponential_backoff id 1024 1 32 false = .error "OverflowError" ∧
    exponential_backoff id 1024 1 32 false ≠ .ok 32 := by
  refine ⟨by decide, by decide⟩

/-- C3 amended: for attempts below the float-overflow threshold 1024,
the calculator with jitter disabled returns exactly
`min(base * 2 ^ attempt, max)`; attempt 0 yields `base` when
`base ≤ max`; every returned value is clamped at `max`, and with
jitter enabled the draw is applied to the already-clamped value.  At
`attempt ≥ 1024` the computation raises OverflowError before any
clamp or jitter draw. -/
theorem exponential_backoff_spec :
    (∀ (draw : ℚ → ℚ) (attempt : Nat) (base mx : ℚ), attempt < 1024 →
      exponential_backoff draw attempt base mx false =
        .ok (min (base * 2 ^ attempt) mx)) ∧
    (∀ (draw : ℚ → ℚ) (base mx : ℚ), base ≤ mx →
      exponential_backoff draw 0 base mx false = .ok base) ∧
    (∀ (draw : ℚ → ℚ) (attempt : Nat) (base mx d : ℚ),
      exponential_backoff draw attempt base mx false = .ok d → d ≤ mx) ∧
    (∀ (draw : ℚ → ℚ) (attempt : Nat) (base mx : ℚ), attempt < 1024 →
      exponential_backoff draw attempt base mx true =
        .ok (draw (min (base * 2 ^ attempt) mx))) ∧
    (∀ (draw : ℚ → ℚ) (attempt : Nat) (base mx : ℚ) (jitter : Bool),
      1024 ≤ attempt →
      exponential_backoff draw attempt base mx jitter = .error "OverflowError") := by
  refine ⟨fun draw attempt base mx h => by simp [exponential_backoff_ok _ _ _ _ _ h],
          fun draw base mx h => ?_,
          fun draw attempt base mx d h => ?_,
          fun draw attempt base mx h => by simp [exponential_backoff_ok _ _ _ _ _ h],
          fun draw attempt base mx jitter h => by simp [exponential_backoff, h]⟩
  · simp [exponential_backoff_ok draw 0 base mx false (by omega), min_eq_left h]
  · by_cases hov : 1024 ≤ attempt
    · simp [exponential_backoff, hov] at h
    · rw [exponential_backoff_ok draw attempt base mx false (by omega)] at h
      cases h
      exact min_le_right _ _

/-- Witness for the amended C3 at `base = 1, max = 32`. -/
theorem exponential_backoff_spec_witness :
    (1 : ℚ) ≤ 32 ∧ exponential_backoff id 0 1 32 false = .ok 1 :=
  ⟨by norm_num, exponential_backoff_spec.2.1 id 1 32 (by norm_num)⟩

/-! ## Claim C1: rate limiter check-and-admit -/

/-- Admission decisions of a fresh `RateLimiter(limit=3, window=60)`
across check-and-admit calls at monotonic instants 0, 0, 0, 0, 61. -/
def rlScenario : List Bool :=
  (([0, 0, 0, 0, 61] : List Int).foldl
    (fun (acc : List Bool × RateLimiter) t =>
      let r := acc.2.is_allowed t
      (acc.1 ++ [r.1], r.2))
    ([], ⟨3, 60, []⟩)).1

/-- C1: on an ascending timestamp record, check-and-admit admits iff
fewer than `limit` timestamps survive discarding those older than
`now - window`; on admission `now` is appended to the surviving
record, on rejection the record is only pruned; and with `limit = 3`,
`window = 60`, three immediate calls are admitted, a fourth inside the
window is denied and a call after the window is admitted again. -/
theorem rate_limiter_admission_spec :
    (∀ (rl : RateLimiter) (now : Int), rl.requests.Sorted (· ≤ ·) →
      (((rl.is_allowed now).1 = true ↔
        (rl.requests.filter (fun t => decide (now - rl.window ≤ t))).length < rl.limit) ∧
      ((rl.is_allowed now).1 = true →
        (rl.is_allowed now).2.requests =
          rl.requests.filter (fun t => decide (now - rl.window ≤ t)) ++ [now]) ∧
      ((rl.is_allowed now).1 = false →
        (rl.is_allowed now).2.requests =
          rl.requests.filter (fun t => decide (now - rl.window ≤ t))))) ∧
    rlScenario = [true, true, true, false, true] := by
  refine ⟨fun rl now h => ?_, by decide⟩
  have hp : rl.prune now = rl.requests.filter (fun t => decide (now - rl.window ≤ t)) := by
    have := sorted_dropWhile_lt rl.requests (now - rl.window) h
    simpa [RateLimiter.prune] using this
  by_cases hlt : (rl.prune now).length < rl.limit
  · refine ⟨?_, ?_, ?_⟩ <;> rw [← hp] <;> simp [RateLimiter.is_allowed, hlt]
  · refine ⟨?_, ?_, ?_⟩ <;> rw [← hp] <;> simp [RateLimiter.is_allowed, hlt]

/-- Witness for C1 at a concrete sorted state. -/
theorem rate_limiter_admission_spec_witness :
    (((⟨2, 10, [1, 5]⟩ : RateLimiter).is_allowed 12).1 = true ↔
      (([1, 5] : List Int).filter (fun t => decide ((12 : Int) - 10 ≤ t))).length < 2) :=
  (rate_limiter_admission_spec.1 ⟨2, 10, [1, 5]⟩ 12 (by decide)).1

/-! ## Claim C2: bounded retry in the provider fetch -/

/-- A check-and-admit call admits whenever strictly fewer than `limit`
timestamps are recorded (pruning only shrinks the record). -/
theorem is_allowed_fst_of_lt (rl : RateLimiter) (now : Int)
    (h : rl.requests.length < rl.limit) : (rl.is_allowed now).1 = true := by
  have hp : (rl.prune now).length ≤ rl.requests.length := by
    simpa [RateLimiter.prune] using
      (List.dropWhile_sublist (fun t => decide (t < now - rl.window))).length_le
  simp [RateLimiter.is_allowed, lt_of_le_of_lt hp h]

/-- A check-and-admit call leaves the configured limit unchanged. -/
theorem is_allowed_snd_limit (rl : RateLimiter) (now : Int) :
    (rl.is_allowed now).2.limit = rl.limit := by
  by_cases hlt : (rl.prune now).length < rl.limit <;>
    simp [RateLimiter.is_allowed, hlt]

/-- A check-and-admit call grows the record by at most one. -/
theorem is_allowed_snd_len (rl : RateLimiter) (now : Int) :
    (rl.is_allowed now).2.requests.length ≤ rl.requests.length + 1 := by
  have hp : (rl.prune now).length ≤ rl.requests.length := by
    simpa [RateLimiter.prune] using
      (List.dropWhile_sublist (fun t => decide (t < now - rl.window))).length_le
  by_cases hlt : (rl.prune now).length < rl.limit <;>
    simp [RateLimiter.is_allowed, hlt] <;> omega

/-- Against an upstream answering 503 on every attempt, the fetch loop
with `remaining` retries left at 0-based attempt index `attempt`
issues `remaining + 1` further attempts and completes with status 503,
provided the rate limiter has capacity for all of them. -/
theorem fetchAux_always_503 (cfg : FetchCfg) (upstream : Nat → UpOutcome)
    (times : Nat → Int) (url : String)
    (hup : ∀ i, ∃ b l, upstream i = UpOutcome.resp 503 b l) :
    ∀ (remaining attempt : Nat) (rl : RateLimiter),
      rl.requests.length + remaining < rl.limit →
      attempt + remaining ≤ 1024 →
      ∃ out, fetchAux cfg upstream times url remaining attempt rl = .ok out ∧
        out.resp.status_code = 503 ∧ out.attempts = attempt + remaining + 1 := by
  intro remaining
  induction remaining with
  | zero =>
    intro attempt rl hcap hbound
    obtain ⟨b, l, hb⟩ := hup attempt
    have hadm : (rl.is_allowed (times attempt)).1 = true :=
      is_allowed_fst_of_lt _ _ (by omega)
    refine ⟨⟨apiErrorResp url 503 l, attempt + 1, 0, (rl.is_allowed (times attempt)).2⟩,
      ?_, rfl, ?_⟩
    · simp [fetchAux, hadm, hb]
    · show attempt + 1 = attempt + 0 + 1
      omega
  | succ r ih =>
    intro attempt rl hcap hbound
    obtain ⟨b, l, hb⟩ := hup attempt
    have hadm : (rl.is_allowed (times attempt)).1 = true :=
      is_allowed_fst_of_lt _ _ (by omega)
    have hlen := is_allowed_snd_len rl (times attempt)
    have hlim := is_allowed_snd_limit rl (times attempt)
    obtain ⟨out, hout, hst, hat⟩ :=
      ih (attempt + 1) (rl.is_allowed (times attempt)).2 (by omega) (by omega)
    refine ⟨⟨out.resp, out.attempts,
      (if cfg.jitter then cfg.draw (min (cfg.base_delay * 2 ^ attempt) cfg.max_delay)
       else min (cfg.base_delay * 2 ^ attempt) cfg.max_delay) +
        out.total_delay, out.rl⟩, ?_, hst, ?_⟩
    · simp [fetchAux, hadm, hb, retryable,
        exponential_backoff_ok cfg.draw attempt cfg.base_delay cfg.max_delay cfg.jitter
          (by omega), hout, addDelay]
    · show out.attempts = attempt + (r + 1) + 1
      omega

/-- A 200 on the current attempt returns that body immediately: one
further attempt, zero backoff delay. -/
theorem fetchAux_first_200 (cfg : FetchCfg) (upstream : Nat → UpOutcome)
    (times : Nat → Int) (url : String) (remaining attempt : Nat)
    (rl : RateLimiter) (b : JVal) (l : Nat)
    (hb : upstream attempt = .resp 200 b l)
    (hcap : rl.requests.length < rl.limit) :
    fetchAux cfg upstream times url remaining attempt rl =
      .ok ⟨⟨b, 200, l, url⟩, attempt + 1, 0, (rl.is_allowed (times attempt)).2⟩ := by
  have hadm := is_allowed_fst_of_lt rl (times attempt) hcap
  cases remaining <;> simp [fetchAux, hadm, hb]

/-- Against an always-503 upstream, a retry loop whose backoff would
be computed at an attempt index ≥ 1024 raises OverflowError instead
of completing. -/
theorem fetchAux_503_overflow (cfg : FetchCfg) (upstream : Nat → UpOutcome)
    (times : Nat → Int) (url : String)
    (hup : ∀ i, ∃ b l, upstream i = UpOutcome.resp 503 b l) :
    ∀ (remaining attempt : Nat) (rl : RateLimiter),
      rl.requests.length + remaining < rl.limit →
      attempt ≤ 1024 → 1024 < attempt + remaining →
      fetchAux cfg upstream times url remaining attempt rl =
        .exception "OverflowError" := by
  intro remaining
  induction remaining with
  | zero =>
    intro attempt rl hcap h1 h2
    omega
  | succ r ih =>
    intro attempt rl hcap h1 h2
    obtain ⟨b, l, hb⟩ := hup attempt
    have hadm : (rl.is_allowed (times attempt)).1 = true :=
      is_allowed_fst_of_lt _ _ (by omega)
    by_cases hend : attempt = 1024
    · subst hend
      simp [fetchAux, hadm, hb, retryable, exponential_backoff]
    · have hlen := is_allowed_snd_len rl (times attempt)
      have hlim := is_allowed_snd_limit rl (times attempt)
      have hrec := ih (attempt + 1) (rl.is_allowed (times attempt)).2
        (by omega) (by omega) (by omega)
      simp [fetchAux, hadm, hb, retryable,
        exponential_backoff_ok cfg.draw attempt cfg.base_delay cfg.max_delay cfg.jitter
          (by omega), hrec, addDelay]

/-- C2 counterexample: with `maxRetries = 1025` and an always-503
upstream (rate limiting always admitting), the fetch raises
OverflowError at the 1025th backoff computation instead of completing
`maxRetries + 1` attempts with a 503 result. -/
theorem provider_fetch_overflow_counterexample :
    fetch ⟨1025, 1, 32, false, id, 5, "u"⟩ (fun _ => .resp 503 .null 1)
        (fun _ => 0) ⟨2000, 60, []⟩ "u" = .exception "OverflowError" ∧
    ¬ ∃ out, fetch ⟨1025, 1, 32, false, id, 5, "u"⟩ (fun _ => .resp 503 .null 1)
        (fun _ => 0) ⟨2000, 60, []⟩ "u" = .ok out ∧
      out.resp.status_code = 503 ∧ out.attempts = 1025 + 1 := by
  have h := fetchAux_503_overflow ⟨1025, 1, 32, false, id, 5, "u"⟩
    (fun _ => .resp 503 .null 1) (fun _ => 0) "u" (fun i => ⟨.null, 1, rfl⟩)
    1025 0 ⟨2000, 60, []⟩ (by decide) (by decide) (by decide)
  refine ⟨by simpa [fetch] using h, ?_⟩
  rintro ⟨out, hout, -, -⟩
  rw [show fetch ⟨1025, 1, 32, false, id, 5, "u"⟩ (fun _ => .resp 503 .null 1)
    (fun _ => 0) ⟨2000, 60, []⟩ "u" = .exception "OverflowError" from by
      simpa [fetch] using h] at hout
  exact absurd hout (by simp)

/-- C2 amended: with rate limiting admitting every attempt and
`maxRetries ≤ 1024` (beyond which the backoff computation raises
OverflowError before the clamp), a provider that answers 503 on every
attempt makes the fetch issue exactly `maxRetries + 1` attempts and
return status 503; a 200 on the first attempt returns that result
after a single attempt with zero backoff delay, for any
`maxRetries`. -/
theorem provider_fetch_retry_spec (cfg : FetchCfg) (upstream : Nat → UpOutcome)
    (times : Nat → Int) (rl : RateLimiter) (url : String)
    (hcap : rl.requests.length + cfg.maxRetries < rl.limit) :
    (cfg.maxRetries ≤ 1024 →
      (∀ i, ∃ b l, upstream i = UpOutcome.resp 503 b l) →
      ∃ out, fetch cfg upstream times rl url = .ok out ∧
        out.resp.status_code = 503 ∧ out.attempts = cfg.maxRetries + 1) ∧
    (∀ b l, upstream 0 = UpOutcome.resp 200 b l →
      ∃ rst, fetch cfg upstream times rl url = .ok ⟨⟨b, 200, l, url⟩, 1, 0, rst⟩) := by
  constructor
  · intro hov hup
    obtain ⟨out, h1, h2, h3⟩ :=
      fetchAux_always_503 cfg upstream times url hup cfg.maxRetries 0 rl hcap (by omega)
    exact ⟨out, by simpa [fetch] using h1, h2, by omega⟩
  · intro b l hb
    exact ⟨_, by
      simpa [fetch] using
        fetchAux_first_200 cfg upstream times url cfg.maxRetries 0 rl b l hb (by omega)⟩

/-- Witness for the amended C2: `maxRetries = 2`, a provider always
answering 503, a fresh limiter with `limit = 10`. -/
theorem provider_fetch_retry_spec_witness :
    ∃ out, fetch ⟨2, 1, 32, false, id, 5, "u"⟩ (fun _ => .resp 503 .null 7)
        (fun _ => 0) ⟨10, 60, []⟩ "u" = .ok out ∧
      out.resp.status_code = 503 ∧ out.attempts = 2 + 1 :=
  (provider_fetch_retry_spec ⟨2, 1, 32, false, id, 5, "u"⟩ (fun _ => .resp 503 .null 7)
    (fun _ => 0) ⟨10, 60, []⟩ "u" (by decide)).1 (by decide) (fun i => ⟨.null, 7, rfl⟩)

/-! ## Claim C6: timeout exhaustion and the UPSTREAM_ERROR envelope -/

/-- Against an upstream timing out on every attempt, the fetch loop
completes after `remaining + 1` further attempts with the synthetic
timeout response, given rate-limiter capacity. -/
theorem fetchAux_always_timeout (cfg : FetchCfg) (upstream : Nat → UpOutcome)
    (times : Nat → Int) (url : String)
    (hup : ∀ i, upstream i = UpOutcome.timeout) :
    ∀ (remaining attempt : Nat) (rl : RateLimiter),
      rl.requests.length + remaining < rl.limit →
      attempt + remaining ≤ 1024 →
      ∃ out, fetchAux cfg upstream times url remaining attempt rl = .ok out ∧
        out.resp = timeoutResp cfg url ∧ out.attempts = attempt + remaining + 1 := by
  intro remaining
  induction remaining with
  | zero =>
    intro attempt rl hcap hbound
    have hadm : (rl.is_allowed (times attempt)).1 = true :=
      is_allowed_fst_of_lt _ _ (by omega)
    refine ⟨⟨timeoutResp cfg url, attempt + 1, 0, (rl.is_allowed (times attempt)).2⟩,
      ?_, rfl, ?_⟩
    · simp [fetchAux, hadm, hup attempt]
    · show attempt + 1 = attempt + 0 + 1
      omega
  | succ r ih =>
    intro attempt rl hcap hbound
    have hadm : (rl.is_allowed (times attempt)).1 = true :=
      is_allowed_fst_of_lt _ _ (by omega)
    have hlen := is_allowed_snd_len rl (times attempt)
    have hlim := is_allowed_snd_limit rl (times attempt)
    obtain ⟨out, hout, hresp, hat⟩ :=
      ih (attempt + 1) (rl.is_allowed (times attempt)).2 (by omega) (by omega)
    refine ⟨⟨out.resp, out.attempts,
      (if cfg.jitter then cfg.draw (min (cfg.base_delay * 2 ^ attempt) cfg.max_delay)
       else min (cfg.base_delay * 2 ^ attempt) cfg.max_delay) +
        out.total_delay, out.rl⟩, ?_, hresp, ?_⟩
    · simp [fetchAux, hadm, hup attempt,
        exponential_backoff_ok cfg.draw attempt cfg.base_delay cfg.max_delay cfg.jitter
          (by omega), hout, addDelay]
    · show out.attempts = attempt + (r + 1) + 1
      omega

/-- C6 counterexample: with `maxRetries = 2` and an always-timing-out
provider, the pipeline answers with the UPSTREAM_ERROR envelope whose
details are only `{"error": "Request timeout"}`; the status 504 is
embedded nowhere in the envelope, neither as a number nor as a
string. -/
theorem upstream_timeout_details_lack_504 :
    execute_proxy ⟨2, 1, 32, false, id, 5, "http://base"⟩ (fun _ => .timeout)
        (fun _ => 0) ⟨10, 60, []⟩ "ts" ⟨"GetTeam", "rid-6", [("teamId", .num 7)]⟩ =
      ⟨502, error_envelope "rid-6" "UPSTREAM_ERROR" "Upstream API failed after retries"
        (.obj [("error", .str "Request timeout")])⟩ ∧
    JVal.contains (error_envelope "rid-6" "UPSTREAM_ERROR"
      "Upstream API failed after retries"
      (.obj [("error", .str "Request timeout")])) (.num 504) = false ∧
    JVal.contains (error_envelope "rid-6" "UPSTREAM_ERROR"
      "Upstream API failed after retries"
      (.obj [("error", .str "Request timeout")])) (.str "504") = false := by
  refine ⟨by decide, by decide, by decide⟩

/-- C6 amended: when every attempt times out and the rate limiter has
capacity, the fetch returns a synthetic result with status 504,
latency equal to the configured timeout (in ms) and the error payload
`{"error": "Request timeout"}` after `maxRetries + 1` attempts; the
pipeline then responds 502 with an UPSTREAM_ERROR envelope whose
details embed that error payload (not the 504 status). -/
theorem upstream_timeout_envelope_amended :
    (∀ (cfg : FetchCfg) (upstream : Nat → UpOutcome) (times : Nat → Int)
      (rl : RateLimiter) (url : String),
      (∀ i, upstream i = UpOutcome.timeout) →
      rl.requests.length + cfg.maxRetries < rl.limit →
      cfg.maxRetries ≤ 1024 →
      ∃ out, fetch cfg upstream times rl url = .ok out ∧
        out.resp.status_code = 504 ∧
        out.resp.latency_ms = cfg.timeout * 1000 ∧
        out.resp.data = .obj [("error", .str "Request timeout")] ∧
        out.attempts = cfg.maxRetries + 1) ∧
    (∀ (cfg : FetchCfg) (upstream : Nat → UpOutcome) (times : Nat → Int)
      (rl : RateLimiter) (ts rid : String) (v : JVal),
      (∀ i, upstream i = UpOutcome.timeout) →
      rl.requests.length + cfg.maxRetries < rl.limit →
      cfg.maxRetries ≤ 1024 →
      execute_proxy cfg upstream times rl ts ⟨"GetTeam", rid, [("teamId", v)]⟩ =
        ⟨502, error_envelope rid "UPSTREAM_ERROR" "Upstream API failed after retries"
          (.obj [("error", .str "Request timeout")])⟩) := by
  constructor
  · intro cfg upstream times rl url hup hcap hov
    obtain ⟨out, hout, hresp, hat⟩ :=
      fetchAux_always_timeout cfg upstream times url hup cfg.maxRetries 0 rl hcap (by omega)
    exact ⟨out, by simpa [fetch] using hout, by simp [hresp, timeoutResp],
      by simp [hresp, timeoutResp], by simp [hresp, timeoutResp], by omega⟩
  · intro cfg upstream times rl ts rid v hup hcap hov
    obtain ⟨out, hout, hresp, hat⟩ :=
      fetchAux_always_timeout cfg upstream times
        (cfg.base_url ++ "/api/getteam/" ++ pyStr v) hup cfg.maxRetries 0 rl hcap (by omega)
    simp [execute_proxy, validate_operation_type, OPERATIONS, validate_payload,
      missing_fields, required_fields, adapter_url, List.lookup, fetch, hout,
      hresp, timeoutResp, error_http_status]

/-- Witness for the amended C6 at a concrete configuration. -/
theorem upstream_timeout_envelope_amended_witness :
    execute_proxy ⟨1, 1, 32, false, id, 9, "http://b"⟩ (fun _ => .timeout)
        (fun _ => 0) ⟨5, 60, []⟩ "ts" ⟨"GetTeam", "r", [("teamId", .num 3)]⟩ =
      ⟨502, error_envelope "r" "UPSTREAM_ERROR" "Upstream API failed after retries"
        (.obj [("error", .str "Request timeout")])⟩ :=
  upstream_timeout_envelope_amended.2 ⟨1, 1, 32, false, id, 9, "http://b"⟩
    (fun _ => .timeout) (fun _ => 0) ⟨5, 60, []⟩ "ts" "r" (.num 3)
    (fun i => rfl) (by decide) (by decide)

/-! ## Claim C7: payload validation -/

/-- Any known operation whose payload misses required fields is
rejected at the payload-validation step with the VALIDATION_ERROR
envelope carrying the `missing_fields` detail. -/
theorem validation_error_of_missing (cfg : FetchCfg) (upstream : Nat → UpOutcome)
    (times : Nat → Int) (rl : RateLimiter) (ts rid op : String)
    (payload : List (String × JVal))
    (hop : validate_operation_type op = true)
    (hmiss : missing_fields op payload ≠ []) :
    execute_proxy cfg upstream times rl ts ⟨op, rid, payload⟩ =
      ⟨400, error_envelope rid "VALIDATION_ERROR"
        ("Missing required fields: " ++
          pyRepr (.arr ((missing_fields op payload).map JVal.str)))
        (.obj [("missing_fields", .arr ((missing_fields op payload).map JVal.str))])⟩ := by
  have hne : (missing_fields op payload).isEmpty = false := by
    simpa [List.isEmpty_iff] using hmiss
  simp [execute_proxy, hop, validate_payload, hne, error_http_status]

/-- C7 counterexample: a GetTeam payload whose required `teamId` is
present but mistyped (a string) is NOT rejected at payload
validation: with a 200 upstream the pipeline answers success, not a
VALIDATION_ERROR. -/
theorem mistyped_payload_not_rejected :
    execute_proxy ⟨0, 1, 32, false, id, 5, "http://b"⟩
        (fun _ => .resp 200 (.obj [("TeamId", .num 7), ("TeamName", .str "FC Example")]) 4)
        (fun _ => 0) ⟨10, 60, []⟩ "ts" ⟨"GetTeam", "rid-7", [("teamId", .str "abc")]⟩ =
      ⟨200, success_envelope "rid-7"
        (.obj [("id", .num 7), ("name", .str "FC Example"), ("shortName", .null),
               ("foundedYear", .null), ("logo", .null)]) 4 "ts"⟩ ∧
    (execute_proxy ⟨0, 1, 32, false, id, 5, "http://b"⟩
        (fun _ => .resp 200 (.obj [("TeamId", .num 7), ("TeamName", .str "FC Example")]) 4)
        (fun _ => 0) ⟨10, 60, []⟩ "ts"
        ⟨"GetTeam", "rid-7", [("teamId", .str "abc")]⟩).status_code ≠ 400 := by
  refine ⟨by decide, by decide⟩

/-- C7 amended: for every known operation, a payload missing required
fields fails payload validation with a VALIDATION_ERROR envelope whose
details carry the list of missing field names (not a per-field
errorType/message map); in particular a GetTeam request with empty
payload yields a VALIDATION_ERROR citing `teamId`.  A present but
mistyped value is not rejected at this step. -/
theorem payload_validation_amended :
    (∀ (cfg : FetchCfg) (upstream : Nat → UpOutcome) (times : Nat → Int)
      (rl : RateLimiter) (ts rid op : String) (payload : List (String × JVal)),
      validate_operation_type op = true →
      missing_fields op payload ≠ [] →
      execute_proxy cfg upstream times rl ts ⟨op, rid, payload⟩ =
        ⟨400, error_envelope rid "VALIDATION_ERROR"
          ("Missing required fields: " ++
            pyRepr (.arr ((missing_fields op payload).map JVal.str)))
          (.obj [("missing_fields", .arr ((missing_fields op payload).map JVal.str))])⟩) ∧
    (∀ (cfg : FetchCfg) (upstream : Nat → UpOutcome) (times : Nat → Int)
      (rl : RateLimiter) (ts rid : String),
      execute_proxy cfg upstream times rl ts ⟨"GetTeam", rid, []⟩ =
        ⟨400, error_envelope rid "VALIDATION_ERROR"
          "Missing required fields: [\x27teamId\x27]"
          (.obj [("missing_fields", .arr [.str "teamId"])])⟩) :=
  ⟨fun cfg upstream times rl ts rid op payload hop hmiss =>
    validation_error_of_missing cfg upstream times rl ts rid op payload hop hmiss,
   fun cfg upstream times rl ts rid =>
    validation_error_of_missing cfg upstream times rl ts rid "GetTeam" [] rfl (by decide)⟩

/-- Witness for the amended C7 at a concrete request missing `season`. -/
theorem payload_validation_amended_witness :
    execute_proxy ⟨0, 1, 32, false, id, 5, "http://b"⟩ (fun _ => .resp 200 .null 4)
        (fun _ => 0) ⟨10, 60, []⟩ "ts"
        ⟨"GetLeagueMatches", "w7", [("leagueId", .num 1)]⟩ =
      ⟨400, error_envelope "w7" "VALIDATION_ERROR"
        "Missing required fields: [\x27season\x27]"
        (.obj [("missing_fields", .arr [.str "season"])])⟩ :=
  payload_validation_amended.1 ⟨0, 1, 32, false, id, 5, "http://b"⟩
    (fun _ => .resp 200 .null 4) (fun _ => 0) ⟨10, 60, []⟩ "ts" "w7"
    "GetLeagueMatches" [("leagueId", .num 1)] rfl (by decide)

/-! ## Claim C8: unknown operation -/

/-- C8: any request whose operation name is outside the closed
enumeration is answered by the route with the 400 UNKNOWN_OPERATION
error envelope (4xx client-error class). -/
theorem unknown_operation_envelope :
    ∀ (cfg : FetchCfg) (upstream : Nat → UpOutcome) (times : Nat → Int)
      (rl : RateLimiter) (ts rid op : String) (payload : List (String × JVal)),
      validate_operation_type op = false →
      execute_proxy cfg upstream times rl ts ⟨op, rid, payload⟩ =
        ⟨400, error_envelope rid "UNKNOWN_OPERATION" unknownOperationMessage .null⟩ := by
  intro cfg upstream times rl ts rid op payload hop
  simp [execute_proxy, hop, error_http_status]

/-- Witness for C8 at `operationType = "Bogus"`. -/
theorem unknown_operation_envelope_witness :
    execute_proxy ⟨0, 1, 32, false, id, 5, "http://b"⟩ (fun _ => .resp 200 .null 4)
        (fun _ => 0) ⟨10, 60, []⟩ "ts" ⟨"Bogus", "w8", []⟩ =
      ⟨400, error_envelope "w8" "UNKNOWN_OPERATION" unknownOperationMessage .null⟩ :=
  unknown_operation_envelope ⟨0, 1, 32, false, id, 5, "http://b"⟩
    (fun _ => .resp 200 .null 4) (fun _ => 0) ⟨10, 60, []⟩ "ts" "w8" "Bogus" [] rfl

/-! ## Claim C9: requestId on failure responses -/

/-- C9 (code bug): on the rate-limited failure path the response body
is the `check_rate_limit` exception detail — only `code` and
`message` — and carries no `requestId`, unlike every
`_error_response`-built envelope. -/
theorem rate_limited_response_missing_request_id :
    execute_proxy ⟨2, 1, 32, false, id, 5, "http://b"⟩
        (fun _ => .resp 200 (.obj []) 4) (fun _ => 0) ⟨0, 60, []⟩ "ts"
        ⟨"GetTeam", "rid-9", [("teamId", .num 7)]⟩ =
      ⟨429, .obj [("code", .str "RATE_LIMIT_EXCEEDED"),
                  ("message", .str "Rate limit exceeded. Reset in 0s")]⟩ ∧
    JVal.hasKey (.obj [("code", .str "RATE_LIMIT_EXCEEDED"),
                  ("message", .str "Rate limit exceeded. Reset in 0s")]) "requestId" = false ∧
    JVal.hasKey (error_envelope "rid-9" "UPSTREAM_ERROR" "m" .null) "requestId" = true := by
  refine ⟨by decide, by decide, by decide⟩

/-! ## Claim C4: normalizer idempotence -/

/-- A raw OpenLigaDB match record. -/
def rawMatchC4 : JVal :=
  .obj [("MatchID", .num 1),
        ("Team1", .obj [("TeamName", .str "FC A")]),
        ("Team2", .obj [("TeamName", .str "FC B")]),
        ("MatchDateTime", .str "2024-01-01"),
        ("MatchResults", .arr [.obj [("PointsTeam1", .num 2), ("PointsTeam2", .num 1)]])]

/-- The stable-shape normalization of `rawMatchC4`. -/
def stableMatchC4 : JVal :=
  .obj [("id", .num 1), ("team1", .str "FC A"), ("team2", .str "FC B"),
        ("date", .str "2024-01-01"), ("status", .str "completed"),
        ("goals1", .num 2), ("goals2", .num 1),
        ("result", .obj [("team1Goals", .num 2), ("team2Goals", .num 1)])]

/-- C4 counterexample: re-normalizing an already-normalized match list
corrupts recognized fields — `team1`/`team2` become `""`, `status`
becomes `"scheduled"`, `goals1`/`goals2`/`result` become null. -/
theorem normalize_matches_not_idempotent :
    normalize_matches (.arr [rawMatchC4]) = .ok (.arr [stableMatchC4]) ∧
    normalize_matches (.arr [stableMatchC4]) =
      .ok (.arr [.obj [("id", .num 1), ("team1", .str ""), ("team2", .str ""),
        ("date", .str "2024-01-01"), ("status", .str "scheduled"),
        ("goals1", .null), ("goals2", .null), ("result", .null)]]) ∧
    JVal.obj [("id", .num 1), ("team1", .str ""), ("team2", .str ""),
        ("date", .str "2024-01-01"), ("status", .str "scheduled"),
        ("goals1", .null), ("goals2", .null), ("result", .null)] ≠ stableMatchC4 := by
  refine ⟨by decide, by decide, by decide⟩

/-- A per-item normalizer whose outputs are fixed points propagates
fixed-pointness through the normalization loop. -/
theorem mapExcept_stable (f : JVal → Except String JVal)
    (hf : ∀ x y, f x = .ok y → f y = .ok y) :
    ∀ xs ys : List JVal, mapExcept f xs = .ok ys → mapExcept f ys = .ok ys := by
  intro xs
  induction xs with
  | nil =>
    intro ys h
    simp [mapExcept] at h
    subst h
    simp [mapExcept]
  | cons a as ih =>
    intro ys h
    cases ha : f a with
    | error e => simp [mapExcept, ha] at h
    | ok b =>
      cases has : mapExcept f as with
      | error e => simp [mapExcept, ha, has] at h
      | ok bs =>
        simp [mapExcept, ha, has] at h
        subst h
        simp [mapExcept, hf a b ha, ih bs has]

/-- A league item already produced by `normalize_league_item` is a
fixed point of it. -/
theorem normalize_league_item_stable (x y : JVal)
    (h : normalize_league_item x = .ok y) : normalize_league_item y = .ok y := by
  cases x with
  | obj fs =>
    simp [normalize_league_item, JVal.pyGet, JVal.pyGetD] at h
    subst h
    simp [normalize_league_item, JVal.pyGet, JVal.pyGetD, List.lookup]
  | null => simp [normalize_league_item, JVal.pyGet, JVal.pyGetD] at h
  | bool b => simp [normalize_league_item, JVal.pyGet, JVal.pyGetD] at h
  | num n => simp [normalize_league_item, JVal.pyGet, JVal.pyGetD] at h
  | str s => simp [normalize_league_item, JVal.pyGet, JVal.pyGetD] at h
  | arr xs => simp [normalize_league_item, JVal.pyGet, JVal.pyGetD] at h

/-- C4 amended: team and league normalization are idempotent — every
recognized field of an already-normalized team or league list is
returned unchanged.  Match re-normalization is not: on an input
already in the stable match shape only `id` and `date` are preserved,
while `team1`/`team2` are reset to the empty string, `goals1`,
`goals2` and `result` to null, and `status` to the derived
`"scheduled"`. -/
theorem normalizer_idempotence_amended :
    (∀ fs : List (String × JVal),
      normalize_team (normalize_team (.obj fs)) = normalize_team (.obj fs)) ∧
    (∀ x y : JVal, normalize_leagues x = .ok y → normalize_leagues y = .ok y) ∧
    (∀ a t1 t2 d st g1 g2 r : JVal,
      normalize_match_item (.obj [("id", a), ("team1", t1), ("team2", t2),
        ("date", d), ("status", st), ("goals1", g1), ("goals2", g2),
        ("result", r)]) =
      .ok (.obj [("id", a), ("team1", .str ""), ("team2", .str ""), ("date", d),
        ("status", .str "scheduled"), ("goals1", .null), ("goals2", .null),
        ("result", .null)])) := by
  refine ⟨fun fs => ?_, fun x y h => ?_, fun a t1 t2 d st g1 g2 r => ?_⟩
  · simp [normalize_team, List.lookup]
  · cases x with
    | arr xs =>
      cases hm : mapExcept normalize_league_item xs with
      | error e => simp [normalize_leagues, hm] at h
      | ok ys =>
        simp [normalize_leagues, hm] at h
        subst h
        simp [normalize_leagues,
          mapExcept_stable normalize_league_item normalize_league_item_stable xs ys hm]
    | null =>
      simp [normalize_leagues] at h
      subst h
      simp [normalize_leagues, mapExcept]
    | bool b =>
      simp [normalize_leagues] at h
      subst h
      simp [normalize_leagues, mapExcept]
    | num n =>
      simp [normalize_leagues] at h
      subst h
      simp [normalize_leagues, mapExcept]
    | str s =>
      simp [normalize_leagues] at h
      subst h
      simp [normalize_leagues, mapExcept]
    | obj gs =>
      simp [normalize_leagues] at h
      subst h
      simp [normalize_leagues, mapExcept]
  · simp [normalize_match_item, JVal.pyGet, JVal.pyGetD, List.lookup, deriveResult,
      JVal.truthy, JVal.pyOr]

/-- Witness for the amended C4: leagues part applied to a concrete
normalized list. -/
theorem normalizer_idempotence_amended_witness :
    normalize_leagues
        (.arr [.obj [("id", .num 4), ("name", .str "BL"), ("country", .str "de"),
                     ("season", .num 2024)]]) =
      .ok (.arr [.obj [("id", .num 4), ("name", .str "BL"), ("country", .str "de"),
                       ("season", .num 2024)]]) :=
  normalizer_idempotence_amended.2.1
    (.arr [.obj [("LeagueId", .num 4), ("LeagueName", .str "BL"),
                 ("LeagueShortcut", .str "de"), ("CurrentSeason", .num 2024)]])
    (.arr [.obj [("id", .num 4), ("name", .str "BL"), ("country", .str "de"),
                 ("season", .num 2024)]])
    (by decide)

/-! ## Claim C5: normalizer totality -/

/-- Is the value a Python dict? -/
def isObj : JVal → Bool
  | .obj _ => true
  | _ => false

/-- Is the value a Python list? -/
def isArr : JVal → Bool
  | .arr _ => true
  | _ => false

/-- A `Team1`/`Team2` field value the code can consume: a dict, or a
falsy value (replaced by `{}` through `or`). -/
def wellShapedTeamRef (v : JVal) : Bool := isObj v || !v.truthy

/-- A `MatchResults` field value the code can consume: a list of
dicts, or any falsy value (skipping result derivation). -/
def wellShapedResults : JVal → Bool
  | .arr xs => xs.all isObj
  | v => !v.truthy

/-- A match record the code can consume without raising. -/
def wellShapedMatchItem : JVal → Bool
  | .obj fs =>
    wellShapedTeamRef ((fs.lookup "Team1").getD .null) &&
    wellShapedTeamRef ((fs.lookup "Team2").getD .null) &&
    wellShapedResults ((fs.lookup "MatchResults").getD (.arr []))
  | _ => false

/-- A GetMatch response the code can consume: either not a dict (then
`{}` is returned) or a well-shaped match record. -/
def wellShapedGetMatch (d : JVal) : Bool := !isObj d || wellShapedMatchItem d

/-- `x or {}` on a well-shaped team reference is a dict. -/
theorem pyOr_objEmpty_isObj (v : JVal) (h : wellShapedTeamRef v = true) :
    ∃ gs, JVal.pyOr v (.obj []) = .obj gs := by
  by_cases ht : v.truthy = true
  · cases v with
    | obj gs => exact ⟨gs, by simp [JVal.pyOr, ht]⟩
    | null => simp [JVal.truthy] at ht
    | bool b => simp [wellShapedTeamRef, isObj, ht] at h
    | num n => simp [wellShapedTeamRef, isObj, ht] at h
    | str s => simp [wellShapedTeamRef, isObj, ht] at h
    | arr xs => simp [wellShapedTeamRef, isObj, ht] at h
  · exact ⟨[], by simp [JVal.pyOr, ht]⟩

/-- Result derivation never raises on a well-shaped `MatchResults`. -/
theorem deriveResult_ok (v : JVal) (h : wellShapedResults v = true) :
    ∃ t, deriveResult v = .ok t := by
  by_cases htr : v.truthy = true
  · cases v with
    | arr xs =>
      have hne : xs ≠ [] := by
        intro hh
        subst hh
        simp [JVal.truthy] at htr
      obtain ⟨last, hlast⟩ :=
        Option.isSome_iff_exists.mp (List.getLast?_isSome.mpr hne)
      have hmem : last ∈ xs := List.mem_of_getLast?_eq_some hlast
      have hobj : isObj last = true := by
        have hall : xs.all isObj = true := by simpa [wellShapedResults] using h
        simpa using List.all_eq_true.mp hall last hmem
      cases last with
      | obj gs =>
        simp [deriveResult, htr, JVal.pyLast, hlast, JVal.pyGet, JVal.pyGetD]
      | null => simp [isObj] at hobj
      | bool b => simp [isObj] at hobj
      | num n => simp [isObj] at hobj
      | str s => simp [isObj] at hobj
      | arr ys => simp [isObj] at hobj
    | null => simp [JVal.truthy] at htr
    | bool b =>
      simp [JVal.truthy] at htr
      simp [wellShapedResults, JVal.truthy, htr] at h
    | num n =>
      simp [JVal.truthy] at htr
      simp [wellShapedResults, JVal.truthy, htr] at h
    | str s =>
      simp [JVal.truthy] at htr
      simp [wellShapedResults, JVal.truthy, htr] at h
    | obj fs =>
      simp [JVal.truthy] at htr
      simp [wellShapedResults, JVal.truthy, htr] at h
  · simp [deriveResult, htr]

/-- League-item normalization never raises on a dict. -/
theorem normalize_league_item_ok (x : JVal) (h : isObj x = true) :
    ∃ y, normalize_league_item x = .ok y := by
  cases x with
  | obj fs => simp [normalize_league_item, JVal.pyGet, JVal.pyGetD]
  | null => simp [isObj] at h
  | bool b => simp [isObj] at h
  | num n => simp [isObj] at h
  | str s => simp [isObj] at h
  | arr xs => simp [isObj] at h

/-- Match-item normalization never raises on a well-shaped record. -/
theorem normalize_match_item_ok (m : JVal) (h : wellShapedMatchItem m = true) :
    ∃ y, normalize_match_item m = .ok y := by
  cases m with
  | obj fs =>
    simp [wellShapedMatchItem, Bool.and_eq_true] at h
    obtain ⟨⟨h1, h2⟩, h3⟩ := h
    obtain ⟨g1, hg1⟩ := pyOr_objEmpty_isObj _ h1
    obtain ⟨g2, hg2⟩ := pyOr_objEmpty_isObj _ h2
    obtain ⟨t, ht⟩ := deriveResult_ok _ h3
    simp [normalize_match_item, JVal.pyGet, JVal.pyGetD, hg1, hg2, ht]
  | null => simp [wellShapedMatchItem] at h
  | bool b => simp [wellShapedMatchItem] at h
  | num n => simp [wellShapedMatchItem] at h
  | str s => simp [wellShapedMatchItem] at h
  | arr xs => simp [wellShapedMatchItem] at h

/-- Single-match normalization never raises on a well-shaped input. -/
theorem normalize_match_ok (d : JVal) (h : wellShapedGetMatch d = true) :
    ∃ y, normalize_match d = .ok y := by
  cases d with
  | obj fs =>
    have hm : wellShapedMatchItem (.obj fs) = true := by
      simpa [wellShapedGetMatch, isObj] using h
    simp [wellShapedMatchItem, Bool.and_eq_true] at hm
    obtain ⟨⟨h1, h2⟩, h3⟩ := hm
    obtain ⟨g1, hg1⟩ := pyOr_objEmpty_isObj _ h1
    obtain ⟨g2, hg2⟩ := pyOr_objEmpty_isObj _ h2
    obtain ⟨t, ht⟩ := deriveResult_ok _ h3
    simp [normalize_match, JVal.pyGet, JVal.pyGetD, hg1, hg2, ht]
  | null => simp [normalize_match]
  | bool b => simp [normalize_match]
  | num n => simp [normalize_match]
  | str s => simp [normalize_match]
  | arr xs => simp [normalize_match]

/-- The normalization loop never raises when no item does. -/
theorem mapExcept_ok_of_all (f : JVal → Except String JVal) :
    ∀ xs : List JVal, (∀ x ∈ xs, ∃ y, f x = .ok y) →
      ∃ ys, mapExcept f xs = .ok ys := by
  intro xs
  induction xs with
  | nil => exact fun _ => ⟨[], rfl⟩
  | cons a as ih =>
    intro h
    obtain ⟨b, hb⟩ := h a (List.mem_cons_self a as)
    obtain ⟨bs, hbs⟩ := ih (fun x hx => h x (List.mem_cons_of_mem a hx))
    exact ⟨b :: bs, by simp [mapExcept, hb, hbs]⟩

/-- C5 counterexample: list-valued inputs with non-dict elements DO
cause a failure — the per-item `.get` raises AttributeError. -/
theorem normalize_fails_on_nonobject_element :
    normalize_response "ListLeagues" (.arr [.num 42]) = .error "AttributeError" ∧
    normalize_response "GetLeagueMatches" (.arr [.str "x"]) = .error "AttributeError" := by
  refine ⟨by decide, by decide⟩

/-- C5 amended: a non-list input for a list operation normalizes to
`[]` and a non-dict input for an object operation to `{}` without
failing; GetTeam normalization is total; list operations never fail
when every element is a dict (well-shaped for matches), and GetMatch
never fails on well-shaped input — but list elements of non-dict type
raise AttributeError (see the counterexample). -/
theorem normalize_totality_amended :
    (∀ d : JVal, isArr d = false →
      normalize_response "ListLeagues" d = .ok (.arr []) ∧
      normalize_response "GetLeagueMatches" d = .ok (.arr [])) ∧
    (∀ d : JVal, isObj d = false →
      normalize_response "GetTeam" d = .ok (.obj []) ∧
      normalize_response "GetMatch" d = .ok (.obj [])) ∧
    (∀ d : JVal, ∃ y, normalize_response "GetTeam" d = .ok y) ∧
    (∀ xs : List JVal, (∀ x ∈ xs, isObj x = true) →
      ∃ ys, normalize_response "ListLeagues" (.arr xs) = .ok (.arr ys)) ∧
    (∀ xs : List JVal, (∀ x ∈ xs, wellShapedMatchItem x = true) →
      ∃ ys, normalize_response "GetLeagueMatches" (.arr xs) = .ok (.arr ys)) ∧
    (∀ d : JVal, wellShapedGetMatch d = true →
      ∃ y, normalize_response "GetMatch" d = .ok y) := by
  refine ⟨fun d hd => ?_, fun d hd => ?_, fun d => ?_, fun xs h => ?_, fun xs h => ?_,
    fun d h => ?_⟩
  · cases d <;> simp [isArr] at hd <;>
      simp [normalize_response, normalize_leagues, normalize_matches]
  · cases d <;> simp [isObj] at hd <;>
      simp [normalize_response, normalize_team, normalize_match]
  · exact ⟨normalize_team d, by simp [normalize_response]⟩
  · obtain ⟨ys, hys⟩ :=
      mapExcept_ok_of_all _ xs (fun x hx => normalize_league_item_ok x (h x hx))
    exact ⟨ys, by simp [normalize_response, normalize_leagues, hys]⟩
  · obtain ⟨ys, hys⟩ :=
      mapExcept_ok_of_all _ xs (fun x hx => normalize_match_item_ok x (h x hx))
    exact ⟨ys, by simp [normalize_response, normalize_matches, hys]⟩
  · obtain ⟨y, hy⟩ := normalize_match_ok d h
    exact ⟨y, by simp [normalize_response, hy]⟩

/-- Witness for the amended C5: the list branch applied to a concrete
well-shaped league list. -/
theorem normalize_totality_amended_witness :
    ∃ ys, normalize_response "ListLeagues" (.arr [.obj [("LeagueId", .num 1)]]) =
      .ok (.arr ys) :=
  normalize_totality_amended.2.2.2.1 [.obj [("LeagueId", .num 1)]] (by simp [isObj])
